import Mathlib

/-!
Shallow embedding of `src/main.py` of the watch-nc-dmv appointment monitor.

The remote browser session is modelled as an explicit value: a probe or a
discovery either fails as a whole (any navigation / selector / connection
error caught by the outer `except`) or yields the list of `.QflowObjectItem`
entries the page shows.  Each entry carries the DOM facts the code inspects:
the optional `div[title]` inner div with its name text, address text and
optional `.No-Availability` marker (with its visibility), plus a flag for a
per-entry query raising (caught by the per-entry `except`).  The HTTP post of
the webhook is a function from the payload to an outcome.  All functions are
total and executable.
-/

namespace DMV

/-- The whitespace characters stripped by Python `str.strip()` on the ASCII
range (the page texts the program strips are ASCII). -/
def isPySpace (c : Char) : Bool :=
  c = ' ' || c = '\t' || c = '\n' || c = '\r' || c = '\x0b' || c = '\x0c'

/-- Embedding of Python `str.strip()`. -/
def pyStrip (s : String) : String :=
  String.mk (((s.toList.dropWhile isPySpace).reverse.dropWhile isPySpace).reverse)

/-- The `div[title]` inner div of a `.QflowObjectItem` entry, as the code
queries it: the `div:first-child` name text, the `.form-control-child`
address text, and the `.No-Availability` marker.  `none` for a text field
covers both a missing child div and a `None` text content (either path skips
the entry); `noAvail = some v` means the marker is present with
`is_visible() = v`, `none` means it is absent. -/
structure InnerDiv where
  nameDiv : Option String
  addressDiv : Option String
  noAvail : Option Bool
deriving DecidableEq

/-- One `.QflowObjectItem` entry.  `raises = true` models any per-entry
remote query raising; the code catches it per entry and continues. -/
structure Entry where
  raises : Bool
  innerDiv : Option InnerDiv
deriving DecidableEq

/-- A discovered location: `{"name": ..., "address": ..., "rank": idx}`. -/
structure Location where
  name : String
  address : String
  rank : Nat
deriving DecidableEq

/-- The outcome of one remote browser interaction: total failure (outer
`except` path) or a page listing its `.QflowObjectItem` entries. -/
inductive RemoteState where
  | failure
  | page (entries : List Entry)
deriving DecidableEq

/-- Loop body of `fetch_nearby_locations` (src/main.py lines 129-159):
`idx` is the 1-based `enumerate` index over the truncated raw listing; an
entry is skipped on a per-entry error, a missing inner/name/address div, or
an empty stripped name or address. -/
def parseEntry (idx : Nat) (e : Entry) : Option Location :=
  if e.raises then none else
  match e.innerDiv with
  | none => none
  | some d =>
    match d.nameDiv with
    | none => none
    | some nameTxt =>
      match d.addressDiv with
      | none => none
      | some addrTxt =>
        if pyStrip nameTxt ≠ "" ∧ pyStrip addrTxt ≠ "" then
          some (Location.mk (pyStrip nameTxt) (pyStrip addrTxt) idx)
        else none

/-- Whether `parseEntry` accepts the entry (independent of its position). -/
def entryValid (e : Entry) : Bool :=
  !e.raises &&
  match e.innerDiv with
  | none => false
  | some d =>
    match d.nameDiv, d.addressDiv with
    | some nameTxt, some addrTxt =>
        decide (pyStrip nameTxt ≠ "") && decide (pyStrip addrTxt ≠ "")
    | some _, none => false
    | none, _ => false

/-- The `for idx, location in enumerate(locations_to_process, 1)` loop:
starting index `idx`, collecting the parsed locations in order. -/
def scanEntries : Nat → List Entry → List Location
  | _, [] => []
  | idx, e :: rest =>
    match parseEntry idx e with
    | some l => l :: scanEntries (idx + 1) rest
    | none => scanEntries (idx + 1) rest

/-- `fetch_nearby_locations` (src/main.py lines 74-166): on any whole-probe
failure returns `[]`; otherwise truncates the raw listing to
`maxLocations` and scans it with 1-based ranks. -/
def fetch_nearby_locations (maxLocations : Nat) (r : RemoteState) : List Location :=
  match r with
  | RemoteState.failure => []
  | RemoteState.page entries => scanEntries 1 (entries.take maxLocations)

/-- Loop body of `check_category` (src/main.py lines 229-257): yields the
stripped name when the entry parses, the name is monitored, and either no
`.No-Availability` marker exists or the marker is present but not visible. -/
def entryAvailableName (monitored : List String) (e : Entry) : Option String :=
  if e.raises then none else
  match e.innerDiv with
  | none => none
  | some d =>
    match d.nameDiv with
    | none => none
    | some nameTxt =>
      if pyStrip nameTxt ∈ monitored then
        match d.noAvail with
        | some vis => if vis then none else some (pyStrip nameTxt)
        | none => some (pyStrip nameTxt)
      else none

/-- `check_category` (src/main.py lines 169-264): on any whole-probe failure
returns `[]` (the outer `except` path); otherwise truncates the raw listing
to `maxLocations` FIRST and then filters by monitored membership and
availability. -/
def check_category (maxLocations : Nat) (monitored : List String) (r : RemoteState) :
    List String :=
  match r with
  | RemoteState.failure => []
  | RemoteState.page entries =>
      (entries.take maxLocations).filterMap (entryAvailableName monitored)

/-- The per-location metadata `{"address": ..., "rank": ...}` stored in
`location_info`. -/
structure LocInfo where
  address : String
  rank : Nat
deriving DecidableEq

/-- One element of the payload's `locations` list. -/
structure LocEntry where
  name : String
  address : String
  rank : Nat
deriving DecidableEq

/-- The webhook payload built by `send_ha_webhook` (src/main.py lines 48-55). -/
structure Payload where
  category : String
  location_count : Nat
  locations : List LocEntry
  timestamp : String
  booking_url : String
  closest_location : Option String
deriving DecidableEq

/-- The sort key of `sorted(locations_info.items(), key=lambda x: x[1]["rank"])`. -/
def byRank (a b : String × LocInfo) : Prop :=
  a.2.rank ≤ b.2.rank

instance : DecidableRel byRank := fun a b => Nat.decLe a.2.rank b.2.rank

instance : IsTotal (String × LocInfo) byRank :=
  ⟨fun a b => Nat.le_total a.2.rank b.2.rank⟩

instance : IsTrans (String × LocInfo) byRank :=
  ⟨fun _ _ _ => Nat.le_trans⟩

/-- Payload construction of `send_ha_webhook` (src/main.py lines 43-55):
`locations_info` is the items of the dict in insertion order; Python's
`sorted` is a stable sort, modelled by `List.insertionSort`. -/
def buildPayload (category ts : String) (locationsInfo : List (String × LocInfo)) : Payload :=
  let locationsData :=
    (List.insertionSort byRank locationsInfo).map
      (fun p => LocEntry.mk p.1 p.2.address p.2.rank)
  Payload.mk category locationsData.length locationsData ts
    "https://skiptheline.ncdot.gov/"
    (locationsData.head?.map LocEntry.name)

/-- Outcome of the `session.post` of the webhook: a completed response with
a status code, an `aiohttp.ClientError`, or any other exception (timeouts
included). -/
inductive HttpOutcome where
  | status (code : Nat)
  | clientError
  | otherError
deriving DecidableEq

/-- `send_ha_webhook` (src/main.py lines 39-71): builds the payload, posts
it, returns `True` exactly on HTTP status 200, `False` on any other status
and on every caught exception.  Totality of this function is the model of
"never raises to its caller". -/
def send_ha_webhook (category ts : String) (locationsInfo : List (String × LocInfo))
    (post : Payload → HttpOutcome) : Bool :=
  match post (buildPayload category ts locationsInfo) with
  | HttpOutcome.status code => code == 200
  | HttpOutcome.clientError => false
  | HttpOutcome.otherError => false

/-- Spec-side definition, following the spec's words only: a "success status
code" in the HTTP sense, the 2xx class.  Kept separate from
`send_ha_webhook` (which is translated from the source) so the two can be
compared. -/
def specSuccessStatus (code : Nat) : Bool :=
  200 ≤ code && code < 300

/-- A monitored category: `CATEGORIES = {"Knowledge Test": 6, "Permits": 9}`. -/
structure Category where
  label : String
  remoteId : Nat
deriving DecidableEq

def CATEGORIES : List Category :=
  [Category.mk "Knowledge Test" 6, Category.mk "Permits" 9]

/-- `location_info[n]` lookup; the dict is modelled as its insertion-order
association list, a later insertion of the same key overwriting an earlier
one (hence the lookup on the reversed list).  Callers only look up keys that
are present. -/
def lookupInfo (info : List (String × LocInfo)) (n : String) : LocInfo :=
  (List.lookup n info.reverse).getD (LocInfo.mk "" 0)

/-- The sort key of `sorted(available_locations, key=lambda x: location_info[x]["rank"])`. -/
def rankLe (info : List (String × LocInfo)) (a b : String) : Prop :=
  (lookupInfo info a).rank ≤ (lookupInfo info b).rank

instance (info : List (String × LocInfo)) : DecidableRel (rankLe info) :=
  fun a b => Nat.decLe (lookupInfo info a).rank (lookupInfo info b).rank

instance (info : List (String × LocInfo)) : IsTotal String (rankLe info) :=
  ⟨fun a b => Nat.le_total (lookupInfo info a).rank (lookupInfo info b).rank⟩

instance (info : List (String × LocInfo)) : IsTrans String (rankLe info) :=
  ⟨fun _ _ _ => Nat.le_trans⟩

/-- Keys of a Python dict built by comprehension over a list: first
occurrence kept, duplicates dropped (values here are a function of the key,
so only key order matters). -/
def dedupFirst (seen : List String) : List String → List String
  | [] => []
  | a :: l => if a ∈ seen then dedupFirst seen l else a :: dedupFirst (a :: seen) l

/-- Per-category notification decision of the orchestrator loop body
(src/main.py lines 308-331): given `(category label, availability result)`,
either no action (empty result) or the `send_ha_webhook` call with the
sorted, deduplicated `webhook_locations_info`. -/
def notifyFn (info : List (String × LocInfo)) (ts : String)
    (r : String × List String) : Option (String × Payload) :=
  if r.2.isEmpty then none
  else
    let sortedLocs := List.insertionSort (rankLe info) r.2
    let webhookNames := dedupFirst [] sortedLocs
    some (r.1, buildPayload r.1 ts (webhookNames.map (fun n => (n, lookupInfo info n))))

/-- One `CYCLE` of `monitor_categories` (src/main.py lines 297-331): the
fan-out computes every category's probe result from that category's own
remote state, then the notifier is invoked exactly for the non-empty
results.  Returns (per-category results, notifier invocations). -/
def runCycle (maxLocations : Nat) (monitored : List String)
    (info : List (String × LocInfo)) (ts : String)
    (env : List (Category × RemoteState)) :
    List (String × List String) × List (String × Payload) :=
  let results := env.map (fun ce => (ce.1.label, check_category maxLocations monitored ce.2))
  (results, results.filterMap (notifyFn info ts))

/-- The observable outcome of a (bounded) run of `monitor_categories`. -/
structure MonitorRun where
  fatal : Bool
  monitored : List String
  probeCount : Nat
  notifications : List (String × Payload)
deriving DecidableEq

/-- `location_info` as built by src/main.py lines 289-292. -/
def buildLocationInfo (locs : List Location) : List (String × LocInfo) :=
  locs.map (fun l => (l.name, LocInfo.mk l.address l.rank))

/-- `monitor_categories` (src/main.py lines 267-334), run for a bounded
number of cycles: each element of `cycles` is (timestamp, per-category
remote state) for one iteration of the `while True` loop.  On empty
discovery the function returns before the loop: no probe is invoked and no
notification is sent.  `probeCount` counts `check_category` invocations. -/
def monitor_categories (maxLocations : Nat) (discovery : RemoteState)
    (cycles : List (String × List (Category × RemoteState))) : MonitorRun :=
  let locationsList := fetch_nearby_locations maxLocations discovery
  if locationsList.isEmpty then
    MonitorRun.mk true [] 0 []
  else
    let monitored := locationsList.map Location.name
    let info := buildLocationInfo locationsList
    MonitorRun.mk false monitored
      ((cycles.map (fun c => c.2.length)).sum)
      (cycles.flatMap (fun c => (runCycle maxLocations monitored info c.1 c.2).2))

end DMV

namespace DMV

/-! ### Concrete entries used by counterexamples and witnesses -/

/-- A raw entry with no `div[title]` inner div: skipped by both scans. -/
def entryNoInner : Entry := Entry.mk false none

/-- A valid available entry named `A`. -/
def entryA : Entry := Entry.mk false (some (InnerDiv.mk (some "A") (some "a") none))

/-- A valid available entry named `B`. -/
def entryB : Entry := Entry.mk false (some (InnerDiv.mk (some "B") (some "b") none))

/-- A valid available entry whose texts carry surrounding whitespace. -/
def entryPadded : Entry :=
  Entry.mk false (some (InnerDiv.mk (some " Cary ") (some " 2 Oak Ave ") none))

/-- An entry named `Durham` with padded name text and no availability marker. -/
def entryDurham : Entry :=
  Entry.mk false (some (InnerDiv.mk (some " Durham ") (some "101 Main St") none))

/-! ### Helper lemmas about the discovery scan -/

theorem parseEntry_some (idx : Nat) (e : Entry) (l : Location)
    (h : parseEntry idx e = some l) :
    l.rank = idx ∧ l.name ≠ "" ∧ l.address ≠ "" := by
  obtain ⟨raises, innerDiv⟩ := e
  cases raises with
  | true => simp [parseEntry] at h
  | false =>
    cases innerDiv with
    | none => simp [parseEntry] at h
    | some d =>
      obtain ⟨nameDiv, addressDiv, noAvail⟩ := d
      cases nameDiv with
      | none => simp [parseEntry] at h
      | some nameTxt =>
        cases addressDiv with
        | none => simp [parseEntry] at h
        | some addrTxt =>
          by_cases hc : pyStrip nameTxt ≠ "" ∧ pyStrip addrTxt ≠ ""
          · simp only [parseEntry, if_neg Bool.false_ne_true, if_pos hc,
              Option.some.injEq] at h
            subst h
            exact ⟨rfl, hc.1, hc.2⟩
          · simp [parseEntry, hc] at h

theorem parseEntry_isSome (idx : Nat) (e : Entry) :
    (parseEntry idx e).isSome = entryValid e := by
  obtain ⟨raises, innerDiv⟩ := e
  cases raises with
  | true => simp [parseEntry, entryValid]
  | false =>
    cases innerDiv with
    | none => simp [parseEntry, entryValid]
    | some d =>
      obtain ⟨nameDiv, addressDiv, noAvail⟩ := d
      cases nameDiv with
      | none => simp [parseEntry, entryValid]
      | some nameTxt =>
        cases addressDiv with
        | none => simp [parseEntry, entryValid]
        | some addrTxt =>
          by_cases hc : pyStrip nameTxt ≠ "" ∧ pyStrip addrTxt ≠ ""
          · simp [parseEntry, entryValid, hc.1, hc.2]
          · rcases Decidable.not_and_iff_or_not.mp hc with h1 | h1 <;>
              simp [parseEntry, entryValid, hc] <;> simp_all

theorem scanEntries_all_valid (l : List Entry) (i : Nat)
    (h : ∀ e ∈ l, entryValid e = true) :
    (scanEntries i l).length = l.length ∧
    (scanEntries i l).map Location.rank = List.range' i l.length := by
  induction l generalizing i with
  | nil => simp [scanEntries]
  | cons e rest ih =>
    have he : entryValid e = true := h e (List.mem_cons_self e rest)
    have hsome : (parseEntry i e).isSome = true := by
      rw [parseEntry_isSome]; exact he
    obtain ⟨l0, hl0⟩ := Option.isSome_iff_exists.mp hsome
    have hrank := (parseEntry_some i e l0 hl0).1
    have ihr := ih (i + 1) (fun e' he' => h e' (List.mem_cons_of_mem e he'))
    rw [scanEntries, hl0]
    refine ⟨by simp [ihr.1], ?_⟩
    simp [ihr.1, ihr.2, hrank, List.range'_succ]

theorem scanEntries_mem (l : List Entry) (i : Nat) (loc : Location)
    (h : loc ∈ scanEntries i l) : loc.name ≠ "" ∧ loc.address ≠ "" := by
  induction l generalizing i with
  | nil => simp [scanEntries] at h
  | cons e rest ih =>
    rw [scanEntries] at h
    cases hp : parseEntry i e with
    | none =>
      rw [hp] at h
      exact ih (i + 1) h
    | some l0 =>
      rw [hp] at h
      rcases List.mem_cons.mp h with h1 | h2
      · subst h1
        exact ⟨(parseEntry_some i e loc hp).2.1, (parseEntry_some i e loc hp).2.2⟩
      · exact ih (i + 1) h2

/-! ### Helper lemmas about the probe's per-entry logic -/

theorem entryAvailableName_mem_monitored (monitored : List String) (e : Entry)
    (n : String) (h : entryAvailableName monitored e = some n) : n ∈ monitored := by
  obtain ⟨raises, innerDiv⟩ := e
  cases raises with
  | true => simp [entryAvailableName] at h
  | false =>
    cases innerDiv with
    | none => simp [entryAvailableName] at h
    | some d =>
      obtain ⟨nameDiv, addressDiv, noAvail⟩ := d
      cases nameDiv with
      | none => simp [entryAvailableName] at h
      | some nameTxt =>
        by_cases hm : pyStrip nameTxt ∈ monitored
        · cases noAvail with
          | none =>
            simp only [entryAvailableName, if_neg Bool.false_ne_true, if_pos hm,
              Option.some.injEq] at h
            exact h ▸ hm
          | some vis =>
            cases vis with
            | true => simp [entryAvailableName, hm] at h
            | false =>
              simp only [entryAvailableName, if_neg Bool.false_ne_true, if_pos hm,
                if_neg Bool.false_ne_true, Option.some.injEq] at h
              exact h ▸ hm
        · simp [entryAvailableName, hm] at h

end DMV

namespace DMV

/-! ### Helper lemmas about the cycle's notification step -/

theorem map_fst_filterMap_notifyFn (info : List (String × LocInfo)) (ts : String)
    (results : List (String × List String)) :
    (results.filterMap (notifyFn info ts)).map Prod.fst =
      (results.filter (fun r => !r.2.isEmpty)).map Prod.fst := by
  induction results with
  | nil => rfl
  | cons r rest ih =>
    cases hr : r.2.isEmpty with
    | true => simp [List.filterMap_cons, List.filter_cons, notifyFn, hr, ih]
    | false => simp [List.filterMap_cons, List.filter_cons, notifyFn, hr, ih]

theorem notifyFn_locations_ne_nil (info : List (String × LocInfo)) (ts : String)
    (r : String × List String) (np : String × Payload)
    (h : notifyFn info ts r = some np) : np.2.locations ≠ [] := by
  unfold notifyFn at h
  by_cases hr : r.2.isEmpty
  · simp [hr] at h
  · rw [if_neg hr] at h
    have hnp := (Option.some.injEq _ _).mp h
    have hlist : List.insertionSort (rankLe info) r.2 ≠ [] := by
      intro hnil
      have hlen : (List.insertionSort (rankLe info) r.2).length = r.2.length :=
        List.length_insertionSort (rankLe info) r.2
      rw [hnil] at hlen
      exact hr (List.isEmpty_iff_length_eq_zero.mpr hlen.symm)
    cases hs : List.insertionSort (rankLe info) r.2 with
    | nil => exact absurd hs hlist
    | cons a t =>
      intro hcon
      rw [← hnp] at hcon
      have hlen := congrArg List.length hcon
      simp only [buildPayload, List.length_map, List.length_insertionSort,
        List.length_nil] at hlen
      rw [hs] at hlen
      simp [dedupFirst] at hlen

end DMV

namespace DMV

/-- Cycle environment used by the C1 and C7 witnesses: the Knowledge Test
probe fails, the Permits probe sees one available monitored entry. -/
def wEnv : List (Category × RemoteState) :=
  [(Category.mk "Knowledge Test" 6, RemoteState.failure),
   (Category.mk "Permits" 9, RemoteState.page [entryB])]

/-- Location metadata used by the C1 and C7 witnesses. -/
def wInfo : List (String × LocInfo) := [("B", LocInfo.mk "b" 1)]

/-- C1: a failed probe yields the empty result (it never raises, being a
total function into lists); every sibling category's result in the same
cycle is still computed from its own remote state, and every category whose
result is non-empty is notified. -/
theorem probe_failure_isolated (maxLocations : Nat) (monitored : List String)
    (info : List (String × LocInfo)) (ts : String)
    (env : List (Category × RemoteState)) (c : Category × RemoteState)
    (_hc : c ∈ env) (hfail : c.2 = RemoteState.failure) :
    check_category maxLocations monitored c.2 = [] ∧
    (runCycle maxLocations monitored info ts env).1 =
      env.map (fun ce => (ce.1.label, check_category maxLocations monitored ce.2)) ∧
    ∀ ce ∈ env, check_category maxLocations monitored ce.2 ≠ [] →
      ce.1.label ∈ ((runCycle maxLocations monitored info ts env).2.map Prod.fst) := by
  refine ⟨by rw [hfail]; rfl, rfl, ?_⟩
  intro ce hce hne
  have hmap : (runCycle maxLocations monitored info ts env).2.map Prod.fst =
      ((env.map (fun x => (x.1.label, check_category maxLocations monitored x.2))).filter
        (fun r => !r.2.isEmpty)).map Prod.fst :=
    map_fst_filterMap_notifyFn info ts _
  rw [hmap]
  refine List.mem_map.mpr
    ⟨(ce.1.label, check_category maxLocations monitored ce.2), ?_, rfl⟩
  refine List.mem_filter.mpr ⟨List.mem_map.mpr ⟨ce, hce, rfl⟩, ?_⟩
  simpa using hne

/-- C1 witness. -/
theorem probe_failure_isolated_witness :
    check_category 25 ["B"] RemoteState.failure = [] ∧
    (runCycle 25 ["B"] wInfo "t" wEnv).1 =
      wEnv.map (fun ce => (ce.1.label, check_category 25 ["B"] ce.2)) ∧
    ∀ ce ∈ wEnv, check_category 25 ["B"] ce.2 ≠ [] →
      ce.1.label ∈ ((runCycle 25 ["B"] wInfo "t" wEnv).2.map Prod.fst) :=
  probe_failure_isolated 25 ["B"] wInfo "t" wEnv
    (Category.mk "Knowledge Test" 6, RemoteState.failure) (by decide) rfl

/-- C2: every name a probe returns is a member of the monitored set,
whatever the remote availability state. -/
theorem probe_subset_monitored (maxLocations : Nat) (monitored : List String)
    (r : RemoteState) (n : String)
    (h : n ∈ check_category maxLocations monitored r) : n ∈ monitored := by
  cases r with
  | failure => simp [check_category] at h
  | page entries =>
    rw [check_category] at h
    obtain ⟨e, _, hsome⟩ := List.mem_filterMap.mp h
    exact entryAvailableName_mem_monitored monitored e n hsome

/-- C2 witness. -/
theorem probe_subset_monitored_witness :
    ("B" ∈ check_category 1 ["B"] (RemoteState.page [entryB])) ∧ "B" ∈ ["B"] :=
  ⟨by decide, probe_subset_monitored 1 ["B"] (RemoteState.page [entryB]) "B" (by decide)⟩

/-- C7: within a cycle, the notifier is invoked exactly for the categories
whose availability result is non-empty, and every payload it is invoked
with has a non-empty `locations` list. -/
theorem notify_iff_nonempty (maxLocations : Nat) (monitored : List String)
    (info : List (String × LocInfo)) (ts : String)
    (env : List (Category × RemoteState)) :
    ((runCycle maxLocations monitored info ts env).2.map Prod.fst =
      (((runCycle maxLocations monitored info ts env).1.filter
        (fun r => !r.2.isEmpty)).map Prod.fst)) ∧
    ∀ np ∈ (runCycle maxLocations monitored info ts env).2,
      np.2.locations ≠ [] := by
  refine ⟨map_fst_filterMap_notifyFn info ts _, ?_⟩
  intro np hnp
  obtain ⟨r, _, hsome⟩ := List.mem_filterMap.mp hnp
  exact notifyFn_locations_ne_nil info ts r np hsome

/-- C7 witness. -/
theorem notify_iff_nonempty_witness :
    ((runCycle 25 ["B"] wInfo "t" wEnv).2.map Prod.fst =
      (((runCycle 25 ["B"] wInfo "t" wEnv).1.filter
        (fun r => !r.2.isEmpty)).map Prod.fst)) ∧
    ∀ np ∈ (runCycle 25 ["B"] wInfo "t" wEnv).2,
      np.2.locations ≠ [] :=
  notify_iff_nonempty 25 ["B"] wInfo "t" wEnv

/-- C8: when discovery returns an empty sequence, the run is fatal: the
monitoring loop never starts, no probe is invoked and no notification is
sent, whatever cycles would have followed. -/
theorem empty_discovery_fatal (maxLocations : Nat) (discovery : RemoteState)
    (cycles : List (String × List (Category × RemoteState)))
    (h : fetch_nearby_locations maxLocations discovery = []) :
    monitor_categories maxLocations discovery cycles = MonitorRun.mk true [] 0 [] := by
  have hh : (fetch_nearby_locations maxLocations discovery).isEmpty = true := by
    simp [h]
  simp [monitor_categories, hh]

/-- C8 witness. -/
theorem empty_discovery_fatal_witness :
    (fetch_nearby_locations 25 RemoteState.failure = []) ∧
    monitor_categories 25 RemoteState.failure
      [("t", [(Category.mk "Permits" 9, RemoteState.page [entryB])])] =
      MonitorRun.mk true [] 0 [] :=
  ⟨rfl, empty_discovery_fatal 25 RemoteState.failure
    [("t", [(Category.mk "Permits" 9, RemoteState.page [entryB])])] rfl⟩

end DMV

namespace DMV

/-- C4: an enumerated entry that parses and whose stripped name is monitored
is reported available exactly when it does not carry a currently-visible
`.No-Availability` marker: an absent marker, or a present but not visible
marker, counts as available. -/
theorem default_available (monitored : List String) (e : Entry) (d : InnerDiv)
    (t : String) (h1 : e.raises = false) (h2 : e.innerDiv = some d)
    (h3 : d.nameDiv = some t) (h4 : pyStrip t ∈ monitored) :
    (entryAvailableName monitored e = some (pyStrip t) ↔ ¬ d.noAvail = some true) ∧
    (pyStrip t ∈ check_category 1 monitored (RemoteState.page [e]) ↔
      ¬ d.noAvail = some true) := by
  have hmain : entryAvailableName monitored e = some (pyStrip t) ↔
      ¬ d.noAvail = some true := by
    cases hna : d.noAvail with
    | none => simp [entryAvailableName, h1, h2, h3, h4, hna]
    | some vis =>
      cases vis with
      | true => simp [entryAvailableName, h1, h2, h3, h4, hna]
      | false => simp [entryAvailableName, h1, h2, h3, h4, hna]
  refine ⟨hmain, ?_⟩
  have hcc : check_category 1 monitored (RemoteState.page [e]) =
      (entryAvailableName monitored e).toList := by
    cases hfe : entryAvailableName monitored e with
    | none => simp [check_category, List.filterMap_cons, hfe]
    | some b => simp [check_category, List.filterMap_cons, hfe]
  rw [hcc, Option.mem_toList, Option.mem_def]
  exact hmain

/-- C4 witness. -/
theorem default_available_witness :
    (entryAvailableName ["Durham"] entryDurham = some (pyStrip " Durham ") ↔
      ¬ (InnerDiv.mk (some " Durham ") (some "101 Main St") none).noAvail = some true) ∧
    (pyStrip " Durham " ∈ check_category 1 ["Durham"] (RemoteState.page [entryDurham]) ↔
      ¬ (InnerDiv.mk (some " Durham ") (some "101 Main St") none).noAvail = some true) :=
  default_available ["Durham"] entryDurham
    (InnerDiv.mk (some " Durham ") (some "101 Main St") none) " Durham "
    rfl rfl rfl (by decide)

/-- C10: every location discovery produces has a non-empty name and a
non-empty address (both already whitespace-stripped); entries whose
stripped name or address is empty never get into the returned list, hence
never into the monitored set built from it. -/
theorem discovered_fields_nonempty (maxLocations : Nat) (r : RemoteState)
    (l : Location) (h : l ∈ fetch_nearby_locations maxLocations r) :
    l.name ≠ "" ∧ l.address ≠ "" := by
  cases r with
  | failure => simp [fetch_nearby_locations] at h
  | page entries =>
    rw [fetch_nearby_locations] at h
    exact scanEntries_mem (entries.take maxLocations) 1 l h

/-- C10 witness. -/
theorem discovered_fields_nonempty_witness :
    (Location.mk "Cary" "2 Oak Ave" 1 ∈
      fetch_nearby_locations 25 (RemoteState.page [entryPadded])) ∧
    (Location.mk "Cary" "2 Oak Ave" 1).name ≠ "" ∧
    (Location.mk "Cary" "2 Oak Ave" 1).address ≠ "" :=
  ⟨by decide, discovered_fields_nonempty 25 (RemoteState.page [entryPadded])
    (Location.mk "Cary" "2 Oak Ave" 1) (by decide)⟩

/-- C3 counterexample: two raw entries, the first of which has no inner div
(an invalid entry), the second valid; `maxCount = 2`, so at least one valid
entry exists.  Discovery returns one location whose rank is 2, not the
contiguous sequence starting at 1 the claim requires (and the length is the
number of valid enumerated entries, not `min(maxCount, entries)` for the
raw listing). -/
theorem discovery_rank_counterexample :
    fetch_nearby_locations 2 (RemoteState.page [entryNoInner, entryB]) =
      [Location.mk "B" "b" 2] ∧
    ¬ ((fetch_nearby_locations 2 (RemoteState.page [entryNoInner, entryB])).map
          Location.rank =
        List.range' 1
          (fetch_nearby_locations 2 (RemoteState.page [entryNoInner, entryB])).length) := by
  decide

/-- C3 (amended): rank is the 1-based position in the truncated RAW listing,
so when every enumerated entry is valid (parses with a non-empty stripped
name and address and no per-entry error) the returned sequence has length
`min(maxCount, availableEntries)` and its ranks are exactly the contiguous
sequence `1..length`; an invalid entry before a valid one leaves a gap. -/
theorem discovery_rank_contiguous (k : Nat) (entries : List Entry)
    (hvalid : ∀ e ∈ entries.take k, entryValid e = true) :
    (fetch_nearby_locations k (RemoteState.page entries)).length =
      min k entries.length ∧
    (fetch_nearby_locations k (RemoteState.page entries)).map Location.rank =
      List.range' 1 (fetch_nearby_locations k (RemoteState.page entries)).length := by
  have h := scanEntries_all_valid (entries.take k) 1 hvalid
  rw [fetch_nearby_locations]
  rw [List.length_take] at h
  exact ⟨h.1, by rw [h.2, h.1]⟩

/-- C3 witness. -/
theorem discovery_rank_contiguous_witness :
    (∀ e ∈ ([entryA, entryB] : List Entry).take 2, entryValid e = true) ∧
    (fetch_nearby_locations 2 (RemoteState.page [entryA, entryB])).length =
      min 2 ([entryA, entryB] : List Entry).length ∧
    (fetch_nearby_locations 2 (RemoteState.page [entryA, entryB])).map Location.rank =
      List.range' 1 (fetch_nearby_locations 2 (RemoteState.page [entryA, entryB])).length :=
  ⟨by decide, discovery_rank_contiguous 2 [entryA, entryB] (by decide)⟩

/-- C5 counterexample: with `maxCount = 1`, monitored set `{B}` and the raw
listing `[A, B]` (A not monitored, B monitored and available), the probe
reports nothing: the non-monitored entry A consumed the only enumeration
slot and pushed B out of the window, though the same probe on `[B]` alone
reports B. -/
theorem probe_window_counterexample :
    check_category 1 ["B"] (RemoteState.page [entryA, entryB]) = [] ∧
    check_category 1 ["B"] (RemoteState.page [entryB]) = ["B"] := by
  decide

/-- C5 (amended): all raw entries — monitored or not — count toward the
configured maximum: the probe truncates the raw listing to the first
`maxCount` entries BEFORE filtering by the monitored set, so entries listed
beyond the first `maxCount` are never inspected, and every reported name
comes from an entry inside that raw window. -/
theorem probe_window_before_filter (maxLocations : Nat) (monitored : List String)
    (entries extra : List Entry) (h : maxLocations ≤ entries.length) :
    check_category maxLocations monitored (RemoteState.page (entries ++ extra)) =
      check_category maxLocations monitored (RemoteState.page entries) ∧
    ∀ n ∈ check_category maxLocations monitored (RemoteState.page entries),
      ∃ e ∈ entries.take maxLocations, entryAvailableName monitored e = some n := by
  constructor
  · rw [check_category, check_category, List.take_append_eq_append_take,
      Nat.sub_eq_zero_of_le h, List.take_zero, List.append_nil]
  · intro n hn
    rw [check_category] at hn
    obtain ⟨e, he, hsome⟩ := List.mem_filterMap.mp hn
    exact ⟨e, he, hsome⟩

/-- C5 witness. -/
theorem probe_window_before_filter_witness :
    (1 ≤ ([entryA] : List Entry).length) ∧
    (check_category 1 ["B"] (RemoteState.page ([entryA] ++ [entryB])) =
      check_category 1 ["B"] (RemoteState.page [entryA]) ∧
    ∀ n ∈ check_category 1 ["B"] (RemoteState.page [entryA]),
      ∃ e ∈ ([entryA] : List Entry).take 1, entryAvailableName ["B"] e = some n) :=
  ⟨by decide, probe_window_before_filter 1 ["B"] [entryA] [entryB] (by decide)⟩

end DMV

namespace DMV

/-- C6: every payload `send_ha_webhook` builds has its `locations` list
sorted ascending by `rank`, `location_count` equal to that list's length
(one entry per distinct input name), and `closest_location` equal to the
first listed name, `null` when the list is empty. -/
theorem payload_sorted_closest (category ts : String)
    (locationsInfo : List (String × LocInfo)) :
    List.Pairwise (fun a b => LocEntry.rank a ≤ LocEntry.rank b)
      (buildPayload category ts locationsInfo).locations ∧
    (buildPayload category ts locationsInfo).location_count =
      (buildPayload category ts locationsInfo).locations.length ∧
    (buildPayload category ts locationsInfo).locations.length =
      locationsInfo.length ∧
    (buildPayload category ts locationsInfo).closest_location =
      ((buildPayload category ts locationsInfo).locations.head?).map LocEntry.name := by
  refine ⟨?_, rfl, ?_, rfl⟩
  · have hs : List.Pairwise byRank (List.insertionSort byRank locationsInfo) :=
      List.sorted_insertionSort byRank locationsInfo
    exact List.Pairwise.map
      (fun p : String × LocInfo => LocEntry.mk p.1 p.2.address p.2.rank)
      (fun a b hab => hab) hs
  · simp [buildPayload]

/-- C9 counterexample: HTTP status 201 is a success status code in the
spec's sense (the 2xx class), yet `send_ha_webhook` returns `False` on it:
the claim's "true exactly on a success status code" fails at this input. -/
theorem webhook_success_class_counterexample :
    ¬ ((send_ha_webhook "Permits" "t" [] (fun _ => HttpOutcome.status 201) = true) ↔
        specSuccessStatus 201 = true) := by
  decide

/-- C9 (amended): `send_ha_webhook` returns `true` exactly when the webhook
request completes with status code 200 — any other status code (success
class or not), connection error, or timeout yields `false`; being a total
function it never raises to its caller. -/
theorem webhook_true_iff_200 (category ts : String)
    (locationsInfo : List (String × LocInfo)) (post : Payload → HttpOutcome) :
    send_ha_webhook category ts locationsInfo post = true ↔
      post (buildPayload category ts locationsInfo) = HttpOutcome.status 200 := by
  unfold send_ha_webhook
  cases hp : post (buildPayload category ts locationsInfo) with
  | status code => simp
  | clientError => simp
  | otherError => simp

end DMV
